import Mathlib

/-!
# Board support module of the ESP32-MeshKit-Sense (`board.c`)

A shallow embedding of
`examples/common_components/boards/esp32-meshkit-sense/board.c`.

* The four file-scope variables of `board.c` are the first four fields of `Board`.
* The vendor SDK (GPIO driver, `i2c_bus`, `spi_bus`) is outside the file.  It is a
  parameter `Driver H`: arbitrary functions over an arbitrary hardware state `H`.
  A statement quantified over `H` and `d : Driver H` holds under any driver behaviour.
* Every SDK call is appended to the ghost field `calls`, every log line to `log`,
  so that "no driver call is made" is a statement about `calls`.
* The constants of `board.h` and the `CONFIG_*` switches are the fields of `Config`.
* Each C function becomes a function from the state before the call to the
  returned value paired with the state after the call.
-/

namespace MeshkitSense

/-! ## Data model -/

/-- The status type `esp_err_t` (a 32-bit signed integer in the SDK). -/
abbrev esp_err_t := Int

/-- The SDK status `ESP_OK`. -/
def ESP_OK : esp_err_t := 0

/-- The SDK status `ESP_FAIL`. -/
def ESP_FAIL : esp_err_t := -1

/-- The null pointer; bus handles are pointers, modelled by their address. -/
def NULL : Nat := 0

/-- Build-time configuration: the `CONFIG_*` switches tested by `#if` / `#ifdef`
in `board.c` and the constants it takes from `board.h`. -/
structure Config where
  CONFIG_BOARD_I2C0_INIT : Bool
  CONFIG_BOARD_SPI2_INIT : Bool
  CONFIG_BOARD_POWER_SENSOR : Bool
  CONFIG_BOARD_POWER_SCREEN : Bool
  BOARD_IO_POWER_ON_SENSOR_N : Nat
  BOARD_IO_POWER_ON_SCREEN_N : Nat
  BOARD_IO_PIN_SEL_OUTPUT : Nat
  BOARD_I2C0_ID : Nat
  BOARD_NAME : String

/-- A call into the vendor SDK, with the arguments that vary. -/
inductive Call where
  | gpio_config (pin_bit_mask : Nat)
  | gpio_set_level (gpio_num : Nat) (level : Nat)
  | gpio_get_level (gpio_num : Nat)
  | i2c_bus_create
  | i2c_bus_delete (handle : Nat)
  | spi_bus_create
  | spi_bus_delete (handle : Nat)
  deriving DecidableEq, Repr

/-- The vendor SDK as seen from `board.c`, over a hardware state `H`.
`i2c_bus_delete` and `spi_bus_delete` receive the address of the handle variable:
they get its content and return their status together with its new content. -/
structure Driver (H : Type) where
  gpio_config : Nat → H → esp_err_t × H
  gpio_set_level : Nat → Nat → H → esp_err_t × H
  gpio_get_level : Nat → H → Nat
  i2c_bus_create : H → Nat × H
  i2c_bus_delete : Nat → H → esp_err_t × Nat × H
  spi_bus_create : H → Nat × H
  spi_bus_delete : Nat → H → esp_err_t × Nat × H

/-- The state: the four file-scope variables of `board.c`, the hardware state,
and the ghost records of SDK calls and log lines. -/
structure Board (H : Type) where
  s_board_is_init : Bool
  s_board_gpio_isinit : Bool
  s_i2c0_bus_handle : Nat
  s_spi2_bus_handle : Nat
  hw : H
  calls : List Call
  log : List String

variable {H : Type}

/-- Record one SDK call and the hardware state it leaves. -/
def Board.called (s : Board H) (c : Call) (hw1 : H) : Board H :=
  { s with hw := hw1, calls := s.calls ++ [c] }

/-- The logging call `ESP_LOGE(TAG, ...)`, as used by `BOARD_CHECK`: one more log line. -/
def ESP_LOGE (str : String) (s : Board H) : Board H :=
  { s with log := s.log ++ [str] }

/-- The logging call `ESP_LOGI(TAG, ...)`: one more log line. -/
def ESP_LOGI (str : String) (s : Board H) : Board H :=
  { s with log := s.log ++ [str] }

/-- The C expression `!on_off` for a `bool`, as the `uint32_t` level argument. -/
def levelOf (on_off : Bool) : Nat :=
  if on_off then 0 else 1

/-! ## Private board level API -/

/-- The function `board_i2c_bus_init`, lines 33-51. -/
def board_i2c_bus_init (cfg : Config) (d : Driver H) (s : Board H) : esp_err_t × Board H :=
  if cfg.CONFIG_BOARD_I2C0_INIT then
    let r := d.i2c_bus_create s.hw
    let handle := r.1
    let s1 := s.called Call.i2c_bus_create r.2
    if handle ≠ NULL then
      (ESP_OK, { s1 with s_i2c0_bus_handle := handle })
    else
      (ESP_FAIL, ESP_LOGE "i2c_bus creat failed" s1)
  else
    (ESP_OK, { s with s_i2c0_bus_handle := NULL })

/-- The function `board_i2c_bus_deinit`, lines 53-60. -/
def board_i2c_bus_deinit (d : Driver H) (s : Board H) : esp_err_t × Board H :=
  if s.s_i2c0_bus_handle ≠ NULL then
    let r := d.i2c_bus_delete s.s_i2c0_bus_handle s.hw
    let s1 := { s.called (Call.i2c_bus_delete s.s_i2c0_bus_handle) r.2.2 with
                s_i2c0_bus_handle := r.2.1 }
    if s1.s_i2c0_bus_handle = NULL then
      (ESP_OK, s1)
    else
      (ESP_FAIL, ESP_LOGE "i2c_bus delete failed" s1)
  else
    (ESP_OK, s)

/-- The function `board_spi_bus_init`, lines 62-74. -/
def board_spi_bus_init (cfg : Config) (d : Driver H) (s : Board H) : esp_err_t × Board H :=
  if cfg.CONFIG_BOARD_SPI2_INIT then
    let r := d.spi_bus_create s.hw
    let s1 := { s.called Call.spi_bus_create r.2 with s_spi2_bus_handle := r.1 }
    if s1.s_spi2_bus_handle ≠ NULL then
      (ESP_OK, s1)
    else
      (ESP_FAIL, ESP_LOGE "spi_bus2 creat failed" s1)
  else
    (ESP_OK, s)

/-- The function `board_spi_bus_deinit`, lines 76-83. -/
def board_spi_bus_deinit (d : Driver H) (s : Board H) : esp_err_t × Board H :=
  if s.s_spi2_bus_handle ≠ NULL then
    let r := d.spi_bus_delete s.s_spi2_bus_handle s.hw
    let s1 := { s.called (Call.spi_bus_delete s.s_spi2_bus_handle) r.2.2 with
                s_spi2_bus_handle := r.2.1 }
    if s1.s_spi2_bus_handle = NULL then
      (ESP_OK, s1)
    else
      (ESP_FAIL, ESP_LOGE "i2c_bus delete failed" s1)
  else
    (ESP_OK, s)

/-- The function `board_gpio_init`, lines 85-107. -/
def board_gpio_init (cfg : Config) (d : Driver H) (s : Board H) : esp_err_t × Board H :=
  if s.s_board_gpio_isinit then
    (ESP_OK, s)
  else
    let r := d.gpio_config cfg.BOARD_IO_PIN_SEL_OUTPUT s.hw
    let ret := r.1
    let s1 := s.called (Call.gpio_config cfg.BOARD_IO_PIN_SEL_OUTPUT) r.2
    if ret = ESP_OK then
      (ret, { s1 with s_board_gpio_isinit := true })
    else
      (ret, s1)

/-- The function `board_gpio_deinit`, lines 109-116. -/
def board_gpio_deinit (s : Board H) : esp_err_t × Board H :=
  if !s.s_board_gpio_isinit then
    (ESP_OK, s)
  else
    (ESP_OK, { s with s_board_gpio_isinit := false })

/-! ## Extended board level API -/

/-- The function `iot_board_sensor_set_power`, lines 204-210. -/
def iot_board_sensor_set_power (cfg : Config) (d : Driver H) (on_off : Bool) (s : Board H) :
    esp_err_t × Board H :=
  if !s.s_board_gpio_isinit then
    (ESP_FAIL, s)
  else
    let r := d.gpio_set_level cfg.BOARD_IO_POWER_ON_SENSOR_N (levelOf on_off) s.hw
    (r.1, s.called (Call.gpio_set_level cfg.BOARD_IO_POWER_ON_SENSOR_N (levelOf on_off)) r.2)

/-- The function `iot_board_sensor_get_power`, lines 212-218: the level is negated. -/
def iot_board_sensor_get_power (cfg : Config) (d : Driver H) (s : Board H) : Bool × Board H :=
  if !s.s_board_gpio_isinit then
    (false, s)
  else
    (decide (d.gpio_get_level cfg.BOARD_IO_POWER_ON_SENSOR_N s.hw = 0),
      s.called (Call.gpio_get_level cfg.BOARD_IO_POWER_ON_SENSOR_N) s.hw)

/-- The function `iot_board_screen_set_power`, lines 220-226. -/
def iot_board_screen_set_power (cfg : Config) (d : Driver H) (on_off : Bool) (s : Board H) :
    esp_err_t × Board H :=
  if !s.s_board_gpio_isinit then
    (ESP_FAIL, s)
  else
    let r := d.gpio_set_level cfg.BOARD_IO_POWER_ON_SCREEN_N (levelOf on_off) s.hw
    (r.1, s.called (Call.gpio_set_level cfg.BOARD_IO_POWER_ON_SCREEN_N (levelOf on_off)) r.2)

/-- The function `iot_board_screen_get_power`, lines 228-234: the level is converted
to `bool` as it is, without negation. -/
def iot_board_screen_get_power (cfg : Config) (d : Driver H) (s : Board H) : Bool × Board H :=
  if !s.s_board_gpio_isinit then
    (false, s)
  else
    (decide (d.gpio_get_level cfg.BOARD_IO_POWER_ON_SCREEN_N s.hw ≠ 0),
      s.called (Call.gpio_get_level cfg.BOARD_IO_POWER_ON_SCREEN_N) s.hw)

/-! ## General board level API -/

/-- The function `iot_board_get_info`, lines 197-201. -/
def iot_board_get_info (cfg : Config) : String :=
  cfg.BOARD_NAME

/-- The function `iot_board_init`, lines 119-149.  The statuses of the two power
setters are discarded, as in the source. -/
def iot_board_init (cfg : Config) (d : Driver H) (s : Board H) : esp_err_t × Board H :=
  if s.s_board_is_init then
    (ESP_OK, s)
  else
    let r1 := board_gpio_init cfg d s
    if r1.1 ≠ ESP_OK then (r1.1, ESP_LOGE "gpio init failed" r1.2) else
    let r2 := board_i2c_bus_init cfg d r1.2
    if r2.1 ≠ ESP_OK then (r2.1, ESP_LOGE "i2c init failed" r2.2) else
    let r3 := board_spi_bus_init cfg d r2.2
    if r3.1 ≠ ESP_OK then (r3.1, ESP_LOGE "spi init failed" r3.2) else
    let s4 :=
      if cfg.CONFIG_BOARD_POWER_SENSOR then (iot_board_sensor_set_power cfg d true r3.2).2
      else (iot_board_sensor_set_power cfg d false r3.2).2
    let s5 :=
      if cfg.CONFIG_BOARD_POWER_SCREEN then (iot_board_screen_set_power cfg d true s4).2
      else (iot_board_screen_set_power cfg d false s4).2
    let s6 := { s5 with s_board_is_init := true }
    (ESP_OK, ESP_LOGI "Init Done ..." (ESP_LOGI ("Board Info: " ++ iot_board_get_info cfg) s6))

/-- The function `iot_board_deinit`, lines 151-175. -/
def iot_board_deinit (cfg : Config) (d : Driver H) (s : Board H) : esp_err_t × Board H :=
  if !s.s_board_is_init then
    (ESP_OK, s)
  else
    let r1 := board_gpio_deinit s
    if r1.1 ≠ ESP_OK then (r1.1, ESP_LOGE "gpio de-init failed" r1.2) else
    let r2 := board_i2c_bus_deinit d r1.2
    if r2.1 ≠ ESP_OK then (r2.1, ESP_LOGE "i2c de-init failed" r2.2) else
    let r3 := board_spi_bus_deinit d r2.2
    if r3.1 ≠ ESP_OK then (r3.1, ESP_LOGE "spi de-init failed" r3.2) else
    let s4 :=
      if cfg.CONFIG_BOARD_POWER_SENSOR then (iot_board_sensor_set_power cfg d false r3.2).2
      else r3.2
    let s5 :=
      if cfg.CONFIG_BOARD_POWER_SCREEN then (iot_board_screen_set_power cfg d false s4).2
      else s4
    let s6 := { s5 with s_board_is_init := false }
    (ESP_OK, ESP_LOGI " Deinit Done ..." s6)

/-- The function `iot_board_is_init`, lines 177-180. -/
def iot_board_is_init (s : Board H) : Bool × Board H :=
  (s.s_board_is_init, s)

/-- The function `iot_board_get_handle`, lines 182-195: a `switch` with the single
case `BOARD_I2C0_ID` and a `default` that yields `NULL`. -/
def iot_board_get_handle (cfg : Config) (id : Nat) (s : Board H) : Nat × Board H :=
  if id = cfg.BOARD_I2C0_ID then
    (s.s_i2c0_bus_handle, s)
  else
    (NULL, s)

/-! ## Runs of the API -/

/-- The state at program start: the initialisers of the four file-scope variables
(lines 21-22 and 30-31), nothing called or logged yet. -/
def initial (hw : H) : Board H :=
  { s_board_is_init := false, s_board_gpio_isinit := false,
    s_i2c0_bus_handle := NULL, s_spi2_bus_handle := NULL,
    hw := hw, calls := [], log := [] }

/-- The state-changing entry points of the module. -/
inductive Op where
  | init
  | deinit
  | sensor_set_power (on_off : Bool)
  | sensor_get_power
  | screen_set_power (on_off : Bool)
  | screen_get_power
  deriving DecidableEq, Repr

/-- The state after one call. -/
def step (cfg : Config) (d : Driver H) : Op → Board H → Board H
  | Op.init, s => (iot_board_init cfg d s).2
  | Op.deinit, s => (iot_board_deinit cfg d s).2
  | Op.sensor_set_power b, s => (iot_board_sensor_set_power cfg d b s).2
  | Op.sensor_get_power, s => (iot_board_sensor_get_power cfg d s).2
  | Op.screen_set_power b, s => (iot_board_screen_set_power cfg d b s).2
  | Op.screen_get_power, s => (iot_board_screen_get_power cfg d s).2

/-- The state after a sequence of calls, first call first. -/
def run (cfg : Config) (d : Driver H) : List Op → Board H → Board H
  | [], s => s
  | op :: ops, s => run cfg d ops (step cfg d op s)

/-- Whether the call returns `ESP_OK` in case it is an `iot_board_deinit`. -/
def deinitOk (cfg : Config) (d : Driver H) : Op → Board H → Bool
  | Op.deinit, s => decide ((iot_board_deinit cfg d s).1 = ESP_OK)
  | _, _ => true

/-- Whether every `iot_board_deinit` of the sequence returns `ESP_OK`. -/
def deinitsSucceed (cfg : Config) (d : Driver H) : List Op → Board H → Bool
  | [], _ => true
  | op :: ops, s => deinitOk cfg d op s && deinitsSucceed cfg d ops (step cfg d op s)

/-- A GPIO driver that reads back the last level written to a pin: a read of the pin
just written gives the level written, and a write leaves the other pins as they were.
Every `gpio_set_level` call counts as a write, whatever status it returns. -/
def ReadsBack (d : Driver H) : Prop :=
  (∀ p l h, d.gpio_get_level p (d.gpio_set_level p l h).2 = l) ∧
  (∀ p q l h, p ≠ q → d.gpio_get_level p (d.gpio_set_level q l h).2 = d.gpio_get_level p h)

/-- A GPIO driver whose `gpio_set_level` always succeeds. -/
def SetLevelSucceeds (d : Driver H) : Prop :=
  ∀ p l h, (d.gpio_set_level p l h).1 = ESP_OK

/-! ## Stages of bring-up and tear-down -/

/-- The state `iot_board_init` reaches once its three checked stages have passed. -/
def initTail (cfg : Config) (d : Driver H) (s3 : Board H) : Board H :=
  let s4 :=
    if cfg.CONFIG_BOARD_POWER_SENSOR then (iot_board_sensor_set_power cfg d true s3).2
    else (iot_board_sensor_set_power cfg d false s3).2
  let s5 :=
    if cfg.CONFIG_BOARD_POWER_SCREEN then (iot_board_screen_set_power cfg d true s4).2
    else (iot_board_screen_set_power cfg d false s4).2
  ESP_LOGI "Init Done ..."
    (ESP_LOGI ("Board Info: " ++ iot_board_get_info cfg) { s5 with s_board_is_init := true })

/-- The state `iot_board_deinit` reaches once its three checked stages have passed. -/
def deinitTail (cfg : Config) (d : Driver H) (s3 : Board H) : Board H :=
  let s4 :=
    if cfg.CONFIG_BOARD_POWER_SENSOR then (iot_board_sensor_set_power cfg d false s3).2
    else s3
  let s5 :=
    if cfg.CONFIG_BOARD_POWER_SCREEN then (iot_board_screen_set_power cfg d false s4).2
    else s4
  ESP_LOGI " Deinit Done ..." { s5 with s_board_is_init := false }

/-- The state after the GPIO and I2C stages of `iot_board_deinit`. -/
def deinitMid (d : Driver H) (s : Board H) : Board H :=
  (board_i2c_bus_deinit d (board_gpio_deinit s).2).2

/-- The state invariant of section 3 of the specification: the board flag implies
the GPIO flag. -/
def FlagInv (s : Board H) : Prop :=
  s.s_board_is_init = true → s.s_board_gpio_isinit = true

/-! ## A simulated SDK for concrete runs -/

/-- Hardware state of the simulated SDK: the pin writes, most recent first. -/
abbrev SimHw := List (Nat × Nat)

/-- The level of a pin in the simulated hardware: its most recent write, 0 if none. -/
def simLevel (p : Nat) : SimHw → Nat
  | [] => 0
  | (q, l) :: rest => if q = p then l else simLevel p rest

/-- What the simulated SDK answers. -/
structure SimOpts where
  gpio_config_status : esp_err_t
  gpio_set_level_status : esp_err_t
  i2c_handle : Nat
  spi_handle : Nat
  i2c_delete_clears : Bool
  spi_delete_clears : Bool

/-- The simulated SDK: pins read back the last level written, the rest answers as
`o` says.  A delete that does not clear leaves the handle variable as it was. -/
def simDriver (o : SimOpts) : Driver SimHw where
  gpio_config := fun _ h => (o.gpio_config_status, h)
  gpio_set_level := fun p l h => (o.gpio_set_level_status, (p, l) :: h)
  gpio_get_level := fun p h => simLevel p h
  i2c_bus_create := fun h => (o.i2c_handle, h)
  i2c_bus_delete := fun x h => if o.i2c_delete_clears then (ESP_OK, NULL, h) else (ESP_FAIL, x, h)
  spi_bus_create := fun h => (o.spi_handle, h)
  spi_bus_delete := fun x h => if o.spi_delete_clears then (ESP_OK, NULL, h) else (ESP_FAIL, x, h)

/-- A simulated SDK in which every call succeeds. -/
def goodOpts : SimOpts :=
  { gpio_config_status := ESP_OK, gpio_set_level_status := ESP_OK,
    i2c_handle := 4096, spi_handle := 8192,
    i2c_delete_clears := true, spi_delete_clears := true }

/-- A sample build: both buses and both power lines enabled, sensor line on pin 27,
screen line on pin 14. -/
def sampleConfig : Config :=
  { CONFIG_BOARD_I2C0_INIT := true, CONFIG_BOARD_SPI2_INIT := true,
    CONFIG_BOARD_POWER_SENSOR := true, CONFIG_BOARD_POWER_SCREEN := true,
    BOARD_IO_POWER_ON_SENSOR_N := 27, BOARD_IO_POWER_ON_SCREEN_N := 14,
    BOARD_IO_PIN_SEL_OUTPUT := 134234112,
    BOARD_I2C0_ID := 0, BOARD_NAME := "ESP32-MeshKit-Sense_V1_1" }

/-- A simulated SDK whose `spi_bus_delete` fails and leaves the handle in place. -/
def stuckSpiOpts : SimOpts :=
  { goodOpts with spi_delete_clears := false }

/-- A simulated SDK whose `i2c_bus_delete` fails and leaves the handle in place. -/
def stuckI2cOpts : SimOpts :=
  { goodOpts with i2c_delete_clears := false }

/-- A simulated SDK whose `gpio_set_level` writes the level but returns `ESP_FAIL`. -/
def setLevelFailsOpts : SimOpts :=
  { goodOpts with gpio_set_level_status := ESP_FAIL }

/-- A simulated SDK whose `gpio_set_level` writes the level but returns 258
(`ESP_ERR_INVALID_ARG`). -/
def setLevelInvalidArgOpts : SimOpts :=
  { goodOpts with gpio_set_level_status := 258 }

/-- The state after a successful bring-up on the all-good simulated SDK. -/
def broughtUp : Board SimHw :=
  (iot_board_init sampleConfig (simDriver goodOpts) (initial [])).2

/-- The state after a bring-up and a tear-down that stops at the SPI stage. -/
def afterFailedDeinit : Board SimHw :=
  (iot_board_deinit sampleConfig (simDriver stuckSpiOpts)
    (iot_board_init sampleConfig (simDriver stuckSpiOpts) (initial [])).2).2

/-! ## Helper lemmas -/

theorem simDriver_readsBack (o : SimOpts) : ReadsBack (simDriver o) := by
  refine ⟨?_, ?_⟩
  · intro p l h
    simp [simDriver, simLevel]
  · intro p q l h hpq
    simp [simDriver, simLevel, Ne.symm hpq]

/-- The sensor power setter changes no flag and no handle. -/
theorem sensor_set_power_frame (cfg : Config) (d : Driver H) (b : Bool) (s : Board H) :
    (iot_board_sensor_set_power cfg d b s).2.s_board_is_init = s.s_board_is_init ∧
    (iot_board_sensor_set_power cfg d b s).2.s_board_gpio_isinit = s.s_board_gpio_isinit ∧
    (iot_board_sensor_set_power cfg d b s).2.s_i2c0_bus_handle = s.s_i2c0_bus_handle ∧
    (iot_board_sensor_set_power cfg d b s).2.s_spi2_bus_handle = s.s_spi2_bus_handle := by
  unfold iot_board_sensor_set_power
  split_ifs <;> simp [Board.called]

/-- The screen power setter changes no flag and no handle. -/
theorem screen_set_power_frame (cfg : Config) (d : Driver H) (b : Bool) (s : Board H) :
    (iot_board_screen_set_power cfg d b s).2.s_board_is_init = s.s_board_is_init ∧
    (iot_board_screen_set_power cfg d b s).2.s_board_gpio_isinit = s.s_board_gpio_isinit ∧
    (iot_board_screen_set_power cfg d b s).2.s_i2c0_bus_handle = s.s_i2c0_bus_handle ∧
    (iot_board_screen_set_power cfg d b s).2.s_spi2_bus_handle = s.s_spi2_bus_handle := by
  unfold iot_board_screen_set_power
  split_ifs <;> simp [Board.called]

/-- The sensor power getter changes no flag and no handle. -/
theorem sensor_get_power_frame (cfg : Config) (d : Driver H) (s : Board H) :
    (iot_board_sensor_get_power cfg d s).2.s_board_is_init = s.s_board_is_init ∧
    (iot_board_sensor_get_power cfg d s).2.s_board_gpio_isinit = s.s_board_gpio_isinit ∧
    (iot_board_sensor_get_power cfg d s).2.s_i2c0_bus_handle = s.s_i2c0_bus_handle ∧
    (iot_board_sensor_get_power cfg d s).2.s_spi2_bus_handle = s.s_spi2_bus_handle := by
  unfold iot_board_sensor_get_power
  split_ifs <;> simp [Board.called]

/-- The screen power getter changes no flag and no handle. -/
theorem screen_get_power_frame (cfg : Config) (d : Driver H) (s : Board H) :
    (iot_board_screen_get_power cfg d s).2.s_board_is_init = s.s_board_is_init ∧
    (iot_board_screen_get_power cfg d s).2.s_board_gpio_isinit = s.s_board_gpio_isinit ∧
    (iot_board_screen_get_power cfg d s).2.s_i2c0_bus_handle = s.s_i2c0_bus_handle ∧
    (iot_board_screen_get_power cfg d s).2.s_spi2_bus_handle = s.s_spi2_bus_handle := by
  unfold iot_board_screen_get_power
  split_ifs <;> simp [Board.called]

/-- The stages of `board_gpio_init`: flags and handles it leaves. -/
theorem board_gpio_init_frame (cfg : Config) (d : Driver H) (s : Board H) :
    (board_gpio_init cfg d s).2.s_board_is_init = s.s_board_is_init ∧
    (board_gpio_init cfg d s).2.s_i2c0_bus_handle = s.s_i2c0_bus_handle ∧
    (board_gpio_init cfg d s).2.s_spi2_bus_handle = s.s_spi2_bus_handle ∧
    ((board_gpio_init cfg d s).1 = ESP_OK →
      (board_gpio_init cfg d s).2.s_board_gpio_isinit = true) := by
  unfold board_gpio_init
  by_cases hg : s.s_board_gpio_isinit = true
  · simp [hg]
  · by_cases hc : (d.gpio_config cfg.BOARD_IO_PIN_SEL_OUTPUT s.hw).1 = ESP_OK <;>
      simp [hg, hc, Board.called]

/-- What `board_i2c_bus_init` leaves: the flags and the SPI handle. -/
theorem board_i2c_bus_init_frame (cfg : Config) (d : Driver H) (s : Board H) :
    (board_i2c_bus_init cfg d s).2.s_board_is_init = s.s_board_is_init ∧
    (board_i2c_bus_init cfg d s).2.s_board_gpio_isinit = s.s_board_gpio_isinit ∧
    (board_i2c_bus_init cfg d s).2.s_spi2_bus_handle = s.s_spi2_bus_handle := by
  unfold board_i2c_bus_init
  by_cases hc : cfg.CONFIG_BOARD_I2C0_INIT = true
  · by_cases hn : (d.i2c_bus_create s.hw).1 = NULL <;> simp [hc, hn, Board.called, ESP_LOGE]
  · simp [hc]

/-- What `board_spi_bus_init` leaves: the flags and the I2C handle. -/
theorem board_spi_bus_init_frame (cfg : Config) (d : Driver H) (s : Board H) :
    (board_spi_bus_init cfg d s).2.s_board_is_init = s.s_board_is_init ∧
    (board_spi_bus_init cfg d s).2.s_board_gpio_isinit = s.s_board_gpio_isinit ∧
    (board_spi_bus_init cfg d s).2.s_i2c0_bus_handle = s.s_i2c0_bus_handle := by
  unfold board_spi_bus_init
  by_cases hc : cfg.CONFIG_BOARD_SPI2_INIT = true
  · by_cases hn : (d.spi_bus_create s.hw).1 = NULL <;> simp [hc, hn, Board.called, ESP_LOGE]
  · simp [hc]

/-- With the board flag clear and the three checked stages passing, `iot_board_init`
returns `ESP_OK` in the state `initTail`. -/
theorem iot_board_init_of_stages (cfg : Config) (d : Driver H) (s : Board H)
    (hb : s.s_board_is_init = false)
    (h1 : (board_gpio_init cfg d s).1 = ESP_OK)
    (h2 : (board_i2c_bus_init cfg d (board_gpio_init cfg d s).2).1 = ESP_OK)
    (h3 : (board_spi_bus_init cfg d
            (board_i2c_bus_init cfg d (board_gpio_init cfg d s).2).2).1 = ESP_OK) :
    iot_board_init cfg d s = (ESP_OK, initTail cfg d (board_spi_bus_init cfg d
            (board_i2c_bus_init cfg d (board_gpio_init cfg d s).2).2).2) := by
  unfold iot_board_init initTail
  simp only [hb, h1, h2, h3, ne_eq, not_true_eq_false, if_false, Bool.false_eq_true]

/-- With the board flag clear, `iot_board_init` returns `ESP_OK` only if its three
checked stages pass. -/
theorem iot_board_init_ok_stages (cfg : Config) (d : Driver H) (s : Board H)
    (hb : s.s_board_is_init = false) (hok : (iot_board_init cfg d s).1 = ESP_OK) :
    (board_gpio_init cfg d s).1 = ESP_OK ∧
    (board_i2c_bus_init cfg d (board_gpio_init cfg d s).2).1 = ESP_OK ∧
    (board_spi_bus_init cfg d
      (board_i2c_bus_init cfg d (board_gpio_init cfg d s).2).2).1 = ESP_OK := by
  unfold iot_board_init at hok
  simp only [hb, Bool.false_eq_true, if_false] at hok
  by_cases h1 : (board_gpio_init cfg d s).1 = ESP_OK
  · by_cases h2 : (board_i2c_bus_init cfg d (board_gpio_init cfg d s).2).1 = ESP_OK
    · by_cases h3 : (board_spi_bus_init cfg d
          (board_i2c_bus_init cfg d (board_gpio_init cfg d s).2).2).1 = ESP_OK
      · exact ⟨h1, h2, h3⟩
      · simp only [h1, h2, h3, ne_eq, not_true_eq_false, not_false_eq_true, if_false,
          if_true] at hok
    · simp only [h1, h2, ne_eq, not_true_eq_false, not_false_eq_true, if_false,
        if_true] at hok
  · simp only [h1, ne_eq, not_false_eq_true, if_true] at hok

/-- The flags and handles of `initTail`. -/
theorem initTail_frame (cfg : Config) (d : Driver H) (s3 : Board H) :
    (initTail cfg d s3).s_board_is_init = true ∧
    (initTail cfg d s3).s_board_gpio_isinit = s3.s_board_gpio_isinit ∧
    (initTail cfg d s3).s_i2c0_bus_handle = s3.s_i2c0_bus_handle ∧
    (initTail cfg d s3).s_spi2_bus_handle = s3.s_spi2_bus_handle := by
  unfold initTail
  simp only [ESP_LOGI]
  split_ifs <;>
    simp [(sensor_set_power_frame cfg d _ _).2, (screen_set_power_frame cfg d _ _).2]

/-- A bring-up that starts with the board flag clear and returns `ESP_OK` sets both
flags. -/
theorem init_ok_flags (cfg : Config) (d : Driver H) (s : Board H)
    (hb : s.s_board_is_init = false) (hok : (iot_board_init cfg d s).1 = ESP_OK) :
    (iot_board_init cfg d s).2.s_board_is_init = true ∧
    (iot_board_init cfg d s).2.s_board_gpio_isinit = true := by
  obtain ⟨h1, h2, h3⟩ := iot_board_init_ok_stages cfg d s hb hok
  rw [iot_board_init_of_stages cfg d s hb h1 h2 h3]
  refine ⟨(initTail_frame cfg d _).1, ?_⟩
  rw [(initTail_frame cfg d _).2.1, (board_spi_bus_init_frame cfg d _).2.1,
    (board_i2c_bus_init_frame cfg d _).2.1]
  exact (board_gpio_init_frame cfg d s).2.2.2 h1

/-- When `board_i2c_bus_init` returns `ESP_OK` in a build with I2C0 enabled, the handle
variable holds what `i2c_bus_create` returned, and that is not null. -/
theorem board_i2c_bus_init_ok_handle (cfg : Config) (d : Driver H) (s : Board H)
    (hc : cfg.CONFIG_BOARD_I2C0_INIT = true) (hok : (board_i2c_bus_init cfg d s).1 = ESP_OK) :
    (board_i2c_bus_init cfg d s).2.s_i2c0_bus_handle = (d.i2c_bus_create s.hw).1 ∧
    (d.i2c_bus_create s.hw).1 ≠ NULL := by
  unfold board_i2c_bus_init at hok ⊢
  by_cases hn : (d.i2c_bus_create s.hw).1 = NULL
  · simp [hc, hn, ESP_OK, ESP_FAIL] at hok
  · simp [hc, hn]

/-- The hardware state after the two power writes of `initTail`, when the GPIO flag is
set on entry. -/
theorem initTail_hw (cfg : Config) (d : Driver H) (s3 : Board H)
    (hg : s3.s_board_gpio_isinit = true) :
    (initTail cfg d s3).hw
      = (d.gpio_set_level cfg.BOARD_IO_POWER_ON_SCREEN_N
          (levelOf cfg.CONFIG_BOARD_POWER_SCREEN)
          (d.gpio_set_level cfg.BOARD_IO_POWER_ON_SENSOR_N
            (levelOf cfg.CONFIG_BOARD_POWER_SENSOR) s3.hw).2).2 := by
  unfold initTail
  cases h1 : cfg.CONFIG_BOARD_POWER_SENSOR <;> cases h2 : cfg.CONFIG_BOARD_POWER_SCREEN <;>
    simp [ESP_LOGI, iot_board_sensor_set_power, iot_board_screen_set_power, hg, Board.called]

/-- What `board_gpio_deinit` does: it returns `ESP_OK`, clears the GPIO flag and
leaves the rest. -/
theorem board_gpio_deinit_frame (s : Board H) :
    (board_gpio_deinit s).1 = ESP_OK ∧
    (board_gpio_deinit s).2.s_board_gpio_isinit = false ∧
    (board_gpio_deinit s).2.s_board_is_init = s.s_board_is_init ∧
    (board_gpio_deinit s).2.s_i2c0_bus_handle = s.s_i2c0_bus_handle ∧
    (board_gpio_deinit s).2.s_spi2_bus_handle = s.s_spi2_bus_handle ∧
    (board_gpio_deinit s).2.hw = s.hw ∧
    (board_gpio_deinit s).2.calls = s.calls := by
  unfold board_gpio_deinit
  cases hg : s.s_board_gpio_isinit <;> simp [hg]

/-- What `board_i2c_bus_deinit` leaves, and the null handle when it returns `ESP_OK`. -/
theorem board_i2c_bus_deinit_frame (d : Driver H) (s : Board H) :
    (board_i2c_bus_deinit d s).2.s_board_is_init = s.s_board_is_init ∧
    (board_i2c_bus_deinit d s).2.s_board_gpio_isinit = s.s_board_gpio_isinit ∧
    (board_i2c_bus_deinit d s).2.s_spi2_bus_handle = s.s_spi2_bus_handle ∧
    ((board_i2c_bus_deinit d s).1 = ESP_OK →
      (board_i2c_bus_deinit d s).2.s_i2c0_bus_handle = NULL) := by
  unfold board_i2c_bus_deinit
  by_cases hn : s.s_i2c0_bus_handle = NULL
  · simp [hn]
  · by_cases hc : (d.i2c_bus_delete s.s_i2c0_bus_handle s.hw).2.1 = NULL <;>
      simp [hn, hc, Board.called, ESP_LOGE, ESP_OK, ESP_FAIL]

/-- What `board_spi_bus_deinit` leaves, and the null handle when it returns `ESP_OK`. -/
theorem board_spi_bus_deinit_frame (d : Driver H) (s : Board H) :
    (board_spi_bus_deinit d s).2.s_board_is_init = s.s_board_is_init ∧
    (board_spi_bus_deinit d s).2.s_board_gpio_isinit = s.s_board_gpio_isinit ∧
    (board_spi_bus_deinit d s).2.s_i2c0_bus_handle = s.s_i2c0_bus_handle ∧
    ((board_spi_bus_deinit d s).1 = ESP_OK →
      (board_spi_bus_deinit d s).2.s_spi2_bus_handle = NULL) := by
  unfold board_spi_bus_deinit
  by_cases hn : s.s_spi2_bus_handle = NULL
  · simp [hn]
  · by_cases hc : (d.spi_bus_delete s.s_spi2_bus_handle s.hw).2.1 = NULL <;>
      simp [hn, hc, Board.called, ESP_LOGE, ESP_OK, ESP_FAIL]

/-- With the board flag set, `iot_board_deinit` returns `ESP_OK` only if both bus
stages pass, and then it ends in the state `deinitTail`. -/
theorem iot_board_deinit_ok_stages (cfg : Config) (d : Driver H) (s : Board H)
    (hb : s.s_board_is_init = true) (hok : (iot_board_deinit cfg d s).1 = ESP_OK) :
    (board_i2c_bus_deinit d (board_gpio_deinit s).2).1 = ESP_OK ∧
    (board_spi_bus_deinit d (deinitMid d s)).1 = ESP_OK ∧
    iot_board_deinit cfg d s
      = (ESP_OK, deinitTail cfg d (board_spi_bus_deinit d (deinitMid d s)).2) := by
  have h1 := (board_gpio_deinit_frame s).1
  unfold iot_board_deinit at hok ⊢
  unfold deinitMid deinitTail
  simp only [hb, h1, Bool.not_true, Bool.false_eq_true, if_false, ne_eq,
    not_true_eq_false] at hok ⊢
  by_cases h2 : (board_i2c_bus_deinit d (board_gpio_deinit s).2).1 = ESP_OK
  · by_cases h3 : (board_spi_bus_deinit d
        (board_i2c_bus_deinit d (board_gpio_deinit s).2).2).1 = ESP_OK
    · simp only [h2, h3, not_true_eq_false, if_false, and_self]
    · simp only [h2, h3, not_true_eq_false, not_false_eq_true, if_false, if_true] at hok
  · simp only [h2, not_false_eq_true, if_true] at hok

/-- The flags and handles of `deinitTail`. -/
theorem deinitTail_frame (cfg : Config) (d : Driver H) (s3 : Board H) :
    (deinitTail cfg d s3).s_board_is_init = false ∧
    (deinitTail cfg d s3).s_board_gpio_isinit = s3.s_board_gpio_isinit ∧
    (deinitTail cfg d s3).s_i2c0_bus_handle = s3.s_i2c0_bus_handle ∧
    (deinitTail cfg d s3).s_spi2_bus_handle = s3.s_spi2_bus_handle := by
  unfold deinitTail
  simp only [ESP_LOGI]
  split_ifs <;>
    simp [(sensor_set_power_frame cfg d _ _).2, (screen_set_power_frame cfg d _ _).2]

/-- A tear-down that starts with the board flag set and returns `ESP_OK` leaves both
handles null and both flags clear. -/
theorem deinit_ok_clears (cfg : Config) (d : Driver H) (s : Board H)
    (hb : s.s_board_is_init = true) (hok : (iot_board_deinit cfg d s).1 = ESP_OK) :
    (iot_board_deinit cfg d s).2.s_i2c0_bus_handle = NULL ∧
    (iot_board_deinit cfg d s).2.s_spi2_bus_handle = NULL ∧
    (iot_board_deinit cfg d s).2.s_board_is_init = false ∧
    (iot_board_deinit cfg d s).2.s_board_gpio_isinit = false := by
  obtain ⟨h2, h3, heq⟩ := iot_board_deinit_ok_stages cfg d s hb hok
  rw [heq]
  obtain ⟨t1, t2, t3, t4⟩ := deinitTail_frame cfg d (board_spi_bus_deinit d (deinitMid d s)).2
  obtain ⟨p1, p2, p3, p4⟩ := board_spi_bus_deinit_frame d (deinitMid d s)
  obtain ⟨-, i2, -, i4⟩ := board_i2c_bus_deinit_frame d (board_gpio_deinit s).2
  refine ⟨?_, ?_, t1, ?_⟩
  · rw [t3, p3]
    exact i4 h2
  · rw [t4]
    exact p4 h3
  · rw [t2, p2]
    exact i2.trans (board_gpio_deinit_frame s).2.1

/-- With the board flag set, `iot_board_init` gives back the state it got. -/
theorem same_state_noop_init (cfg : Config) (d : Driver H) (s : Board H)
    (hb : s.s_board_is_init = true) : (iot_board_init cfg d s).2 = s := by
  simp [iot_board_init, hb]

/-- A bring-up that starts with the board flag clear and does not return `ESP_OK`
leaves the board flag clear. -/
theorem init_fail_flag (cfg : Config) (d : Driver H) (s : Board H)
    (hb : s.s_board_is_init = false) (hfail : (iot_board_init cfg d s).1 ≠ ESP_OK) :
    (iot_board_init cfg d s).2.s_board_is_init = false := by
  by_cases h1 : (board_gpio_init cfg d s).1 = ESP_OK
  · by_cases h2 : (board_i2c_bus_init cfg d (board_gpio_init cfg d s).2).1 = ESP_OK
    · by_cases h3 : (board_spi_bus_init cfg d
          (board_i2c_bus_init cfg d (board_gpio_init cfg d s).2).2).1 = ESP_OK
      · rw [iot_board_init_of_stages cfg d s hb h1 h2 h3] at hfail
        exact absurd rfl hfail
      · unfold iot_board_init
        simp only [hb, h1, h2, h3, ne_eq, not_true_eq_false, not_false_eq_true, if_false,
          if_true, Bool.false_eq_true, ESP_LOGE]
        rw [(board_spi_bus_init_frame cfg d _).1, (board_i2c_bus_init_frame cfg d _).1,
          (board_gpio_init_frame cfg d s).1, hb]
    · unfold iot_board_init
      simp only [hb, h1, h2, ne_eq, not_true_eq_false, not_false_eq_true, if_false,
        if_true, Bool.false_eq_true, ESP_LOGE]
      rw [(board_i2c_bus_init_frame cfg d _).1, (board_gpio_init_frame cfg d s).1, hb]
  · unfold iot_board_init
    simp only [hb, h1, ne_eq, not_false_eq_true, if_false, if_true, Bool.false_eq_true,
      ESP_LOGE]
    rw [(board_gpio_init_frame cfg d s).1, hb]

/-- The three ways `iot_board_deinit` ends when the board flag is set: stopped at the
I2C stage, stopped at the SPI stage, or run to the end. -/
theorem iot_board_deinit_cases (cfg : Config) (d : Driver H) (s : Board H)
    (hb : s.s_board_is_init = true) :
    (iot_board_deinit cfg d s).2
        = ESP_LOGE "i2c de-init failed" (board_i2c_bus_deinit d (board_gpio_deinit s).2).2 ∨
    (iot_board_deinit cfg d s).2
        = ESP_LOGE "spi de-init failed" (board_spi_bus_deinit d (deinitMid d s)).2 ∨
    (iot_board_deinit cfg d s).2
        = deinitTail cfg d (board_spi_bus_deinit d (deinitMid d s)).2 := by
  have h1 := (board_gpio_deinit_frame s).1
  unfold iot_board_deinit deinitMid deinitTail
  simp only [hb, h1, Bool.not_true, Bool.false_eq_true, if_false, ne_eq, not_true_eq_false]
  by_cases h2 : (board_i2c_bus_deinit d (board_gpio_deinit s).2).1 = ESP_OK
  · by_cases h3 : (board_spi_bus_deinit d
        (board_i2c_bus_deinit d (board_gpio_deinit s).2).2).1 = ESP_OK
    · simp only [h2, h3, not_true_eq_false, if_false, or_true]
    · simp only [h2, h3, not_true_eq_false, not_false_eq_true, if_false, if_true, true_or,
        or_true]
  · simp only [h2, not_false_eq_true, if_true, true_or]

/-- The SDK calls of `board_i2c_bus_deinit`: at most one `i2c_bus_delete`. -/
theorem board_i2c_bus_deinit_calls (d : Driver H) (s : Board H) (c : Call)
    (hc : c ∈ (board_i2c_bus_deinit d s).2.calls) :
    c ∈ s.calls ∨ c = Call.i2c_bus_delete s.s_i2c0_bus_handle := by
  unfold board_i2c_bus_deinit at hc
  by_cases hn : s.s_i2c0_bus_handle = NULL
  · simp [hn] at hc
    exact Or.inl hc
  · by_cases hd : (d.i2c_bus_delete s.s_i2c0_bus_handle s.hw).2.1 = NULL <;>
      simpa [hn, hd, Board.called, ESP_LOGE] using hc

/-- The SDK calls of `board_spi_bus_deinit`: at most one `spi_bus_delete`. -/
theorem board_spi_bus_deinit_calls (d : Driver H) (s : Board H) (c : Call)
    (hc : c ∈ (board_spi_bus_deinit d s).2.calls) :
    c ∈ s.calls ∨ c = Call.spi_bus_delete s.s_spi2_bus_handle := by
  unfold board_spi_bus_deinit at hc
  by_cases hn : s.s_spi2_bus_handle = NULL
  · simp [hn] at hc
    exact Or.inl hc
  · by_cases hd : (d.spi_bus_delete s.s_spi2_bus_handle s.hw).2.1 = NULL <;>
      simpa [hn, hd, Board.called, ESP_LOGE] using hc

/-- With the GPIO flag clear on entry, the power writes of `deinitTail` are not made:
hardware state and call record stay as they are. -/
theorem deinitTail_gpio_off (cfg : Config) (d : Driver H) (s3 : Board H)
    (hg : s3.s_board_gpio_isinit = false) :
    (deinitTail cfg d s3).calls = s3.calls ∧ (deinitTail cfg d s3).hw = s3.hw := by
  unfold deinitTail
  cases h1 : cfg.CONFIG_BOARD_POWER_SENSOR <;> cases h2 : cfg.CONFIG_BOARD_POWER_SCREEN <;>
    simp [ESP_LOGI, iot_board_sensor_set_power, iot_board_screen_set_power, hg]

/-- In no state does `iot_board_deinit` call `gpio_set_level`: every call it adds to
the record is an `i2c_bus_delete` or a `spi_bus_delete`. -/
theorem deinit_adds_only_bus_deletes (cfg : Config) (d : Driver H) (s : Board H) (c : Call)
    (hc : c ∈ (iot_board_deinit cfg d s).2.calls) :
    c ∈ s.calls ∨ (∃ h, c = Call.i2c_bus_delete h) ∨ (∃ h, c = Call.spi_bus_delete h) := by
  cases hb : s.s_board_is_init
  · simp [iot_board_deinit, hb] at hc
    exact Or.inl hc
  · have hgp := board_gpio_deinit_frame s
    have hi2c : ∀ c, c ∈ (board_i2c_bus_deinit d (board_gpio_deinit s).2).2.calls →
        c ∈ s.calls ∨ (∃ h, c = Call.i2c_bus_delete h) ∨ (∃ h, c = Call.spi_bus_delete h) := by
      intro c hc
      rcases board_i2c_bus_deinit_calls d _ c hc with h | h
      · rw [hgp.2.2.2.2.2.2] at h
        exact Or.inl h
      · exact Or.inr (Or.inl ⟨_, h⟩)
    have hspi : ∀ c, c ∈ (board_spi_bus_deinit d (deinitMid d s)).2.calls →
        c ∈ s.calls ∨ (∃ h, c = Call.i2c_bus_delete h) ∨ (∃ h, c = Call.spi_bus_delete h) := by
      intro c hc
      rcases board_spi_bus_deinit_calls d _ c hc with h | h
      · exact hi2c c h
      · exact Or.inr (Or.inr ⟨_, h⟩)
    have hg3 : (board_spi_bus_deinit d (deinitMid d s)).2.s_board_gpio_isinit = false := by
      rw [(board_spi_bus_deinit_frame d _).2.1]
      unfold deinitMid
      rw [(board_i2c_bus_deinit_frame d _).2.1]
      exact hgp.2.1
    rcases iot_board_deinit_cases cfg d s hb with h | h | h
    · rw [h] at hc
      exact hi2c c hc
    · rw [h] at hc
      exact hspi c hc
    · rw [h, (deinitTail_gpio_off cfg d _ hg3).1] at hc
      exact hspi c hc

/-- Every call of `step` keeps the invariant `FlagInv`, provided that it returns
`ESP_OK` in case it is an `iot_board_deinit`. -/
theorem step_keeps_flagInv (cfg : Config) (d : Driver H) (op : Op) (s : Board H)
    (hinv : FlagInv s) (hok : deinitOk cfg d op s = true) : FlagInv (step cfg d op s) := by
  unfold FlagInv at hinv ⊢
  cases op with
  | init =>
    show (iot_board_init cfg d s).2.s_board_is_init = true →
      (iot_board_init cfg d s).2.s_board_gpio_isinit = true
    cases hb : s.s_board_is_init
    · by_cases hr : (iot_board_init cfg d s).1 = ESP_OK
      · exact fun _ => (init_ok_flags cfg d s hb hr).2
      · intro h
        rw [init_fail_flag cfg d s hb hr] at h
        exact absurd h (by decide)
    · rw [(same_state_noop_init cfg d s hb)]
      exact hinv
  | deinit =>
    show (iot_board_deinit cfg d s).2.s_board_is_init = true →
      (iot_board_deinit cfg d s).2.s_board_gpio_isinit = true
    have hr : (iot_board_deinit cfg d s).1 = ESP_OK := by
      simpa [deinitOk] using hok
    cases hb : s.s_board_is_init
    · simp only [iot_board_deinit, hb, Bool.not_false, if_true]
      intro h
      exact absurd h (by decide)
    · intro h
      rw [(deinit_ok_clears cfg d s hb hr).2.2.1] at h
      exact absurd h (by decide)
  | sensor_set_power b =>
    show (iot_board_sensor_set_power cfg d b s).2.s_board_is_init = true →
      (iot_board_sensor_set_power cfg d b s).2.s_board_gpio_isinit = true
    rw [(sensor_set_power_frame cfg d b s).1, (sensor_set_power_frame cfg d b s).2.1]
    exact hinv
  | sensor_get_power =>
    show (iot_board_sensor_get_power cfg d s).2.s_board_is_init = true →
      (iot_board_sensor_get_power cfg d s).2.s_board_gpio_isinit = true
    rw [(sensor_get_power_frame cfg d s).1, (sensor_get_power_frame cfg d s).2.1]
    exact hinv
  | screen_set_power b =>
    show (iot_board_screen_set_power cfg d b s).2.s_board_is_init = true →
      (iot_board_screen_set_power cfg d b s).2.s_board_gpio_isinit = true
    rw [(screen_set_power_frame cfg d b s).1, (screen_set_power_frame cfg d b s).2.1]
    exact hinv
  | screen_get_power =>
    show (iot_board_screen_get_power cfg d s).2.s_board_is_init = true →
      (iot_board_screen_get_power cfg d s).2.s_board_gpio_isinit = true
    rw [(screen_get_power_frame cfg d s).1, (screen_get_power_frame cfg d s).2.1]
    exact hinv

/-- A sequence of calls in which every `iot_board_deinit` returns `ESP_OK` keeps the
invariant `FlagInv`. -/
theorem run_keeps_flagInv (cfg : Config) (d : Driver H) (ops : List Op) :
    ∀ s : Board H, FlagInv s → deinitsSucceed cfg d ops s = true → FlagInv (run cfg d ops s) := by
  induction ops with
  | nil =>
    intro s hinv _
    exact hinv
  | cons op ops ih =>
    intro s hinv hok
    simp only [deinitsSucceed, Bool.and_eq_true] at hok
    exact ih _ (step_keeps_flagInv cfg d op s hinv hok.1) hok.2

/-! ## Fail-fast bring-up -/

/-- Claim C1. From a state in which neither the board nor the GPIO flag is set, when
`gpio_config` returns a status `e` other than `ESP_OK`, `iot_board_init` returns `e`,
both flags stay false, both bus handles are as before, and the only SDK call made is
that `gpio_config` (so no `i2c_bus_create`, `spi_bus_create` or `gpio_set_level`). -/
theorem init_gpio_config_failure (cfg : Config) (d : Driver H) (s : Board H) (e : esp_err_t)
    (hb : s.s_board_is_init = false) (hg : s.s_board_gpio_isinit = false)
    (he : (d.gpio_config cfg.BOARD_IO_PIN_SEL_OUTPUT s.hw).1 = e) (hne : e ≠ ESP_OK) :
    (iot_board_init cfg d s).1 = e ∧
    (iot_board_init cfg d s).2.s_board_is_init = false ∧
    (iot_board_init cfg d s).2.s_board_gpio_isinit = false ∧
    (iot_board_init cfg d s).2.s_i2c0_bus_handle = s.s_i2c0_bus_handle ∧
    (iot_board_init cfg d s).2.s_spi2_bus_handle = s.s_spi2_bus_handle ∧
    (iot_board_init cfg d s).2.calls
      = s.calls ++ [Call.gpio_config cfg.BOARD_IO_PIN_SEL_OUTPUT] := by
  subst he
  simp [iot_board_init, board_gpio_init, hb, hg, hne, ESP_LOGE, Board.called]

/-- Instance of C1: the simulated `gpio_config` answers `ESP_FAIL`. -/
theorem init_gpio_config_failure_witness :
    (iot_board_init sampleConfig
        (simDriver { goodOpts with gpio_config_status := ESP_FAIL }) (initial [])).1 = ESP_FAIL ∧
    (iot_board_init sampleConfig
        (simDriver { goodOpts with gpio_config_status := ESP_FAIL }) (initial [])).2.calls
      = [Call.gpio_config 134234112] :=
  have h := init_gpio_config_failure sampleConfig
    (simDriver { goodOpts with gpio_config_status := ESP_FAIL }) (initial []) ESP_FAIL
    rfl rfl rfl (by decide)
  ⟨h.1, h.2.2.2.2.2⟩

/-! ## Same-state calls -/

/-- Claim C3. In a state with the board flag set, `iot_board_init` returns `ESP_OK`
and gives back the very same state (no SDK call, flags and handles as before); in a
state with the board flag clear, `iot_board_deinit` does the same. -/
theorem same_state_calls_are_noops (cfg : Config) (d : Driver H) (s : Board H) :
    (s.s_board_is_init = true → iot_board_init cfg d s = (ESP_OK, s)) ∧
    (s.s_board_is_init = false → iot_board_deinit cfg d s = (ESP_OK, s)) := by
  constructor
  · intro h
    simp [iot_board_init, h]
  · intro h
    simp [iot_board_deinit, h]

/-- Instance of C3: a second `iot_board_init` right after a successful one returns
`ESP_OK` and leaves the state of the first; `iot_board_deinit` at program start
returns `ESP_OK` and leaves the initial state. -/
theorem same_state_calls_are_noops_witness :
    iot_board_init sampleConfig (simDriver goodOpts)
        (iot_board_init sampleConfig (simDriver goodOpts) (initial [])).2
      = (ESP_OK, (iot_board_init sampleConfig (simDriver goodOpts) (initial [])).2) ∧
    iot_board_deinit sampleConfig (simDriver goodOpts) (initial [])
      = (ESP_OK, initial []) :=
  ⟨(same_state_calls_are_noops sampleConfig (simDriver goodOpts)
      (iot_board_init sampleConfig (simDriver goodOpts) (initial [])).2).1 rfl,
   (same_state_calls_are_noops sampleConfig (simDriver goodOpts) (initial [])).2 rfl⟩

/-! ## Power accessors -/

/-- Claim C5. While the GPIO flag is clear, both power setters return `ESP_FAIL` and
both power getters return `false`, each giving back the very same state: no
`gpio_set_level`, no `gpio_get_level`, no flag and no handle changed. -/
theorem power_accessors_require_gpio (cfg : Config) (d : Driver H) (s : Board H) (b : Bool)
    (hg : s.s_board_gpio_isinit = false) :
    iot_board_sensor_set_power cfg d b s = (ESP_FAIL, s) ∧
    iot_board_screen_set_power cfg d b s = (ESP_FAIL, s) ∧
    iot_board_sensor_get_power cfg d s = (false, s) ∧
    iot_board_screen_get_power cfg d s = (false, s) := by
  simp [iot_board_sensor_set_power, iot_board_screen_set_power,
    iot_board_sensor_get_power, iot_board_screen_get_power, hg]

/-- Instance of C5 at program start. -/
theorem power_accessors_require_gpio_witness :
    iot_board_sensor_set_power sampleConfig (simDriver goodOpts) true (initial [])
      = (ESP_FAIL, initial []) ∧
    iot_board_screen_set_power sampleConfig (simDriver goodOpts) true (initial [])
      = (ESP_FAIL, initial []) ∧
    iot_board_sensor_get_power sampleConfig (simDriver goodOpts) (initial [])
      = (false, initial []) ∧
    iot_board_screen_get_power sampleConfig (simDriver goodOpts) (initial [])
      = (false, initial []) :=
  power_accessors_require_gpio sampleConfig (simDriver goodOpts) (initial []) true rfl

/-- Claim C6. With the GPIO flag set and a GPIO driver whose `gpio_set_level` succeeds
and whose pins read back the last level written: `iot_board_sensor_set_power b` makes
the one call `gpio_set_level` on the sensor pin with level `!b`, the pin then holds
that level, and `iot_board_sensor_get_power` next returns `b`;
`iot_board_screen_set_power b` makes the one call `gpio_set_level` on the screen pin
with level `!b`, the pin then holds that level, and `iot_board_screen_get_power` next
returns the level as it is, that is `!b`. -/
theorem set_get_polarity (cfg : Config) (d : Driver H) (s : Board H) (b : Bool)
    (hg : s.s_board_gpio_isinit = true) (hs : SetLevelSucceeds d) (hr : ReadsBack d) :
    ((iot_board_sensor_set_power cfg d b s).1 = ESP_OK ∧
      (iot_board_sensor_set_power cfg d b s).2.calls
        = s.calls ++ [Call.gpio_set_level cfg.BOARD_IO_POWER_ON_SENSOR_N (if b then 0 else 1)] ∧
      d.gpio_get_level cfg.BOARD_IO_POWER_ON_SENSOR_N
          (iot_board_sensor_set_power cfg d b s).2.hw = (if b then 0 else 1) ∧
      (iot_board_sensor_get_power cfg d (iot_board_sensor_set_power cfg d b s).2).1 = b) ∧
    ((iot_board_screen_set_power cfg d b s).1 = ESP_OK ∧
      (iot_board_screen_set_power cfg d b s).2.calls
        = s.calls ++ [Call.gpio_set_level cfg.BOARD_IO_POWER_ON_SCREEN_N (if b then 0 else 1)] ∧
      d.gpio_get_level cfg.BOARD_IO_POWER_ON_SCREEN_N
          (iot_board_screen_set_power cfg d b s).2.hw = (if b then 0 else 1) ∧
      (iot_board_screen_get_power cfg d (iot_board_screen_set_power cfg d b s).2).1
        = !b) := by
  obtain ⟨hsame, -⟩ := hr
  cases b <;>
    simp [iot_board_sensor_set_power, iot_board_screen_set_power,
      iot_board_sensor_get_power, iot_board_screen_get_power, hg, hs _ _ _, hsame,
      Board.called, levelOf]

/-- Instance of C6: power "on" after a successful bring-up on the simulated SDK.  The
sensor getter answers `true`, the screen getter `false`. -/
theorem set_get_polarity_witness :
    (iot_board_sensor_get_power sampleConfig (simDriver goodOpts)
      (iot_board_sensor_set_power sampleConfig (simDriver goodOpts) true
        (iot_board_init sampleConfig (simDriver goodOpts) (initial [])).2).2).1 = true ∧
    (iot_board_screen_get_power sampleConfig (simDriver goodOpts)
      (iot_board_screen_set_power sampleConfig (simDriver goodOpts) true
        (iot_board_init sampleConfig (simDriver goodOpts) (initial [])).2).2).1 = false :=
  have h := set_get_polarity sampleConfig (simDriver goodOpts)
    (iot_board_init sampleConfig (simDriver goodOpts) (initial [])).2 true
    rfl (fun _ _ _ => rfl) (simDriver_readsBack goodOpts)
  ⟨h.1.2.2.2, h.2.2.2.2⟩

/-! ## Round trip -/

/-- Claim C2. For every build configuration, every driver and every starting state,
in particular the initial one (both flags false, both handles null): when
`iot_board_init` returns `ESP_OK` and the `iot_board_deinit` that follows returns
`ESP_OK`, both bus handles are null afterwards and `iot_board_is_init` returns `false`. -/
theorem init_deinit_round_trip (cfg : Config) (d : Driver H) (s : Board H)
    (h1 : (iot_board_init cfg d s).1 = ESP_OK)
    (h2 : (iot_board_deinit cfg d (iot_board_init cfg d s).2).1 = ESP_OK) :
    (iot_board_deinit cfg d (iot_board_init cfg d s).2).2.s_i2c0_bus_handle = NULL ∧
    (iot_board_deinit cfg d (iot_board_init cfg d s).2).2.s_spi2_bus_handle = NULL ∧
    (iot_board_is_init (iot_board_deinit cfg d (iot_board_init cfg d s).2).2).1 = false := by
  have hflag : (iot_board_init cfg d s).2.s_board_is_init = true := by
    cases hb : s.s_board_is_init
    · exact (init_ok_flags cfg d s hb h1).1
    · simp [iot_board_init, hb]
  obtain ⟨c1, c2, c3, -⟩ := deinit_ok_clears cfg d _ hflag h2
  exact ⟨c1, c2, c3⟩

/-- Instance of C2 on the simulated SDK, both buses enabled, from the initial state:
both calls return `ESP_OK`, and the conclusion holds. -/
theorem init_deinit_round_trip_witness :
    (iot_board_init sampleConfig (simDriver goodOpts) (initial [])).1 = ESP_OK ∧
    (iot_board_deinit sampleConfig (simDriver goodOpts)
      (iot_board_init sampleConfig (simDriver goodOpts) (initial [])).2).1 = ESP_OK ∧
    (iot_board_deinit sampleConfig (simDriver goodOpts)
      (iot_board_init sampleConfig (simDriver goodOpts) (initial [])).2).2.s_i2c0_bus_handle
        = NULL ∧
    (iot_board_deinit sampleConfig (simDriver goodOpts)
      (iot_board_init sampleConfig (simDriver goodOpts) (initial [])).2).2.s_spi2_bus_handle
        = NULL ∧
    (iot_board_is_init (iot_board_deinit sampleConfig (simDriver goodOpts)
      (iot_board_init sampleConfig (simDriver goodOpts) (initial [])).2).2).1 = false :=
  ⟨rfl, rfl, init_deinit_round_trip sampleConfig (simDriver goodOpts) (initial []) rfl rfl⟩

/-! ## Power polarity after bring-up -/

/-- Claim C4. In a build with the sensor-power feature enabled, with a GPIO driver
whose pins read back the last level written, and with the screen line on a pin other
than the sensor line (`board.h` is not part of the sources; section 4.1 of the
specification puts the screen line "on a different pin"): after an `iot_board_init`
that returns `ESP_OK` from a state with the board flag clear, in particular from the
initial state, the level of pin `BOARD_IO_POWER_ON_SENSOR_N` is 0 and
`iot_board_sensor_get_power` returns `true`. -/
theorem sensor_power_on_after_init (cfg : Config) (d : Driver H) (s : Board H)
    (hb : s.s_board_is_init = false)
    (hsensor : cfg.CONFIG_BOARD_POWER_SENSOR = true) (hr : ReadsBack d)
    (hpins : cfg.BOARD_IO_POWER_ON_SENSOR_N ≠ cfg.BOARD_IO_POWER_ON_SCREEN_N)
    (hok : (iot_board_init cfg d s).1 = ESP_OK) :
    d.gpio_get_level cfg.BOARD_IO_POWER_ON_SENSOR_N (iot_board_init cfg d s).2.hw = 0 ∧
    (iot_board_sensor_get_power cfg d (iot_board_init cfg d s).2).1 = true := by
  obtain ⟨hsame, hother⟩ := hr
  have hflag := (init_ok_flags cfg d s hb hok).2
  obtain ⟨h1, h2, h3⟩ := iot_board_init_ok_stages cfg d s hb hok
  have hg3 : (board_spi_bus_init cfg d
      (board_i2c_bus_init cfg d (board_gpio_init cfg d s).2).2).2.s_board_gpio_isinit = true := by
    rw [(board_spi_bus_init_frame cfg d _).2.1, (board_i2c_bus_init_frame cfg d _).2.1]
    exact (board_gpio_init_frame cfg d s).2.2.2 h1
  have hlevel :
      d.gpio_get_level cfg.BOARD_IO_POWER_ON_SENSOR_N (iot_board_init cfg d s).2.hw = 0 := by
    rw [iot_board_init_of_stages cfg d s hb h1 h2 h3]
    show d.gpio_get_level cfg.BOARD_IO_POWER_ON_SENSOR_N (initTail cfg d _).hw = 0
    rw [initTail_hw cfg d _ hg3, hother _ _ _ _ hpins, hsame, hsensor]
    rfl
  refine ⟨hlevel, ?_⟩
  unfold iot_board_sensor_get_power
  simp [hflag, hlevel]

/-- Instance of C4 on the simulated SDK: sensor line on pin 27, screen line on pin 14. -/
theorem sensor_power_on_after_init_witness :
    (iot_board_init sampleConfig (simDriver goodOpts) (initial [])).1 = ESP_OK ∧
    simLevel 27 (iot_board_init sampleConfig (simDriver goodOpts) (initial [])).2.hw = 0 ∧
    (iot_board_sensor_get_power sampleConfig (simDriver goodOpts)
      (iot_board_init sampleConfig (simDriver goodOpts) (initial [])).2).1 = true :=
  ⟨rfl, sensor_power_on_after_init sampleConfig (simDriver goodOpts) (initial [])
    rfl rfl (simDriver_readsBack goodOpts) (by decide) rfl⟩

/-! ## Resource lookup -/

/-- Counterexample to C7 as stated. On the simulated SDK with a `spi_bus_delete` that
leaves its handle, bring-up, then a tear-down that returns `ESP_FAIL` at the SPI stage
(after the I2C handle was cleared, with the board flag still set), then
`iot_board_init` again: this `iot_board_init` returns `ESP_OK` in a build with I2C0
enabled, yet `iot_board_get_handle BOARD_I2C0_ID` returns null. -/
theorem get_handle_null_after_successful_init :
    sampleConfig.CONFIG_BOARD_I2C0_INIT = true ∧
    (iot_board_init sampleConfig (simDriver stuckSpiOpts) (initial [])).1 = ESP_OK ∧
    (iot_board_deinit sampleConfig (simDriver stuckSpiOpts)
      (iot_board_init sampleConfig (simDriver stuckSpiOpts) (initial [])).2).1 = ESP_FAIL ∧
    (iot_board_init sampleConfig (simDriver stuckSpiOpts) afterFailedDeinit).1 = ESP_OK ∧
    (iot_board_get_handle sampleConfig sampleConfig.BOARD_I2C0_ID
      (iot_board_init sampleConfig (simDriver stuckSpiOpts) afterFailedDeinit).2).1 = NULL :=
  ⟨rfl, rfl, rfl, rfl, rfl⟩

/-- Claim C7, amended. In every state `iot_board_get_handle` returns null for every id
other than `BOARD_I2C0_ID` and the current `s_i2c0_bus_handle` for `BOARD_I2C0_ID`,
and gives back the very same state.  After an `iot_board_init` that starts with the
board flag clear and returns `ESP_OK` in a build with I2C0 enabled, that handle is
the value returned by `i2c_bus_create`, and it is not null. -/
theorem get_handle_lookup (cfg : Config) (d : Driver H) (s : Board H) (id : Nat) :
    (id ≠ cfg.BOARD_I2C0_ID → iot_board_get_handle cfg id s = (NULL, s)) ∧
    iot_board_get_handle cfg cfg.BOARD_I2C0_ID s = (s.s_i2c0_bus_handle, s) ∧
    (s.s_board_is_init = false → cfg.CONFIG_BOARD_I2C0_INIT = true →
      (iot_board_init cfg d s).1 = ESP_OK →
      (iot_board_get_handle cfg cfg.BOARD_I2C0_ID (iot_board_init cfg d s).2).1
          = (d.i2c_bus_create (board_gpio_init cfg d s).2.hw).1 ∧
        (d.i2c_bus_create (board_gpio_init cfg d s).2.hw).1 ≠ NULL) := by
  refine ⟨?_, ?_, ?_⟩
  · intro hid
    simp [iot_board_get_handle, hid]
  · simp [iot_board_get_handle]
  · intro hb hc hok
    obtain ⟨h1, h2, h3⟩ := iot_board_init_ok_stages cfg d s hb hok
    obtain ⟨hh, hnn⟩ := board_i2c_bus_init_ok_handle cfg d (board_gpio_init cfg d s).2 hc h2
    refine ⟨?_, hnn⟩
    rw [iot_board_init_of_stages cfg d s hb h1 h2 h3]
    simp only [iot_board_get_handle, if_true]
    rw [(initTail_frame cfg d _).2.2.1, (board_spi_bus_init_frame cfg d _).2.2, hh]

/-- Instance of amended C7 on the simulated SDK, whose `i2c_bus_create` returns 4096. -/
theorem get_handle_lookup_witness :
    iot_board_get_handle sampleConfig 7 broughtUp = (NULL, broughtUp) ∧
    (iot_board_get_handle sampleConfig sampleConfig.BOARD_I2C0_ID
      (iot_board_init sampleConfig (simDriver goodOpts) (initial [])).2).1 = 4096 :=
  ⟨(get_handle_lookup sampleConfig (simDriver goodOpts) broughtUp 7).1 (by decide),
   ((get_handle_lookup sampleConfig (simDriver goodOpts) (initial []) 0).2.2 rfl rfl rfl).1⟩

/-! ## The power stage of bring-up -/

/-- Counterexample to C10 as stated. On the simulated SDK whose `gpio_set_level`
returns `ESP_FAIL`, GPIO, I2C and SPI bring-up succeed, both default power writes are
made and fail, and `iot_board_init` from the initial state returns `ESP_OK`, not
`ESP_FAIL`, with the board flag set. -/
theorem init_ignores_set_level_failure :
    ((simDriver setLevelFailsOpts).gpio_set_level 27 0 []).1 = ESP_FAIL ∧
    ESP_FAIL ≠ ESP_OK ∧
    (iot_board_init sampleConfig (simDriver setLevelFailsOpts) (initial [])).2.calls
      = [Call.gpio_config 134234112, Call.i2c_bus_create, Call.spi_bus_create,
         Call.gpio_set_level 27 0, Call.gpio_set_level 14 0] ∧
    (iot_board_init sampleConfig (simDriver setLevelFailsOpts) (initial [])).1 = ESP_OK ∧
    (iot_board_init sampleConfig (simDriver setLevelFailsOpts)
      (initial [])).2.s_board_is_init = true :=
  ⟨rfl, by decide, rfl, rfl, rfl⟩

/-- Claim C10, amended. The GPIO, I2C and SPI stages are the checked ones: for every
`iot_board_init` that starts with the board flag clear and in which those three stages
return `ESP_OK`, `iot_board_init` returns `ESP_OK` and sets the board flag, under every
driver, hence whatever status `gpio_set_level` returns for the default power states. -/
theorem init_power_stage_unchecked (cfg : Config) (d : Driver H) (s : Board H)
    (hb : s.s_board_is_init = false)
    (h1 : (board_gpio_init cfg d s).1 = ESP_OK)
    (h2 : (board_i2c_bus_init cfg d (board_gpio_init cfg d s).2).1 = ESP_OK)
    (h3 : (board_spi_bus_init cfg d
            (board_i2c_bus_init cfg d (board_gpio_init cfg d s).2).2).1 = ESP_OK) :
    (iot_board_init cfg d s).1 = ESP_OK ∧
    (iot_board_init cfg d s).2.s_board_is_init = true := by
  rw [iot_board_init_of_stages cfg d s hb h1 h2 h3]
  exact ⟨rfl, (initTail_frame cfg d _).1⟩

/-- Instance of amended C10: `gpio_set_level` returns 258 (`ESP_ERR_INVALID_ARG`). -/
theorem init_power_stage_unchecked_witness :
    ((simDriver setLevelInvalidArgOpts).gpio_set_level 27 0 []).1 = 258 ∧
    (iot_board_init sampleConfig (simDriver setLevelInvalidArgOpts) (initial [])).1 = ESP_OK ∧
    (iot_board_init sampleConfig (simDriver setLevelInvalidArgOpts)
      (initial [])).2.s_board_is_init = true :=
  ⟨rfl, init_power_stage_unchecked sampleConfig (simDriver setLevelInvalidArgOpts) (initial [])
    rfl rfl rfl rfl⟩

/-! ## Tear-down and the power lines -/

/-- Claim C8, the code at a failing input. After a successful bring-up on the all-good
simulated SDK, in a build with both power features enabled, both flags are set and both
lines are on (pins 27 and 14 low).  `iot_board_deinit` returns `ESP_OK`, and the only
SDK calls it makes are the two bus deletes: no `gpio_set_level` with level 1 on either
pin, and both pins are still low afterwards. -/
theorem deinit_leaves_power_lines_on :
    sampleConfig.CONFIG_BOARD_POWER_SENSOR = true ∧
    sampleConfig.CONFIG_BOARD_POWER_SCREEN = true ∧
    broughtUp.s_board_is_init = true ∧ broughtUp.s_board_gpio_isinit = true ∧
    (iot_board_deinit sampleConfig (simDriver goodOpts) broughtUp).1 = ESP_OK ∧
    (iot_board_deinit sampleConfig (simDriver goodOpts) broughtUp).2.calls
      = broughtUp.calls ++ [Call.i2c_bus_delete 4096, Call.spi_bus_delete 8192] ∧
    Call.gpio_set_level 27 1 ∉
      (iot_board_deinit sampleConfig (simDriver goodOpts) broughtUp).2.calls ∧
    Call.gpio_set_level 14 1 ∉
      (iot_board_deinit sampleConfig (simDriver goodOpts) broughtUp).2.calls ∧
    simLevel 27 (iot_board_deinit sampleConfig (simDriver goodOpts) broughtUp).2.hw = 0 ∧
    simLevel 14 (iot_board_deinit sampleConfig (simDriver goodOpts) broughtUp).2.hw = 0 :=
  ⟨rfl, rfl, rfl, rfl, rfl, rfl, by decide, by decide, rfl, rfl⟩

/-! ## The state invariant -/

/-- Counterexample to C9 as stated. On the simulated SDK whose `i2c_bus_delete` leaves
its handle, bring-up followed by tear-down from the initial state ends with the board
flag set and the GPIO flag clear: the tear-down cleared the GPIO flag and then
returned `ESP_FAIL` at the I2C stage. -/
theorem flag_invariant_broken_by_failed_deinit :
    (iot_board_deinit sampleConfig (simDriver stuckI2cOpts)
      (run sampleConfig (simDriver stuckI2cOpts) [Op.init] (initial []))).1 = ESP_FAIL ∧
    (run sampleConfig (simDriver stuckI2cOpts) [Op.init, Op.deinit]
      (initial [])).s_board_is_init = true ∧
    (run sampleConfig (simDriver stuckI2cOpts) [Op.init, Op.deinit]
      (initial [])).s_board_gpio_isinit = false :=
  ⟨rfl, rfl, rfl⟩

/-- Claim C9, amended. In every state reached from the initial state by a sequence of
`iot_board_init`, `iot_board_deinit` and the power setters and getters in which every
`iot_board_deinit` returns `ESP_OK`, under every driver and configuration, the board
flag implies the GPIO flag. -/
theorem flag_invariant (cfg : Config) (d : Driver H) (hw : H) (ops : List Op)
    (hok : deinitsSucceed cfg d ops (initial hw) = true) :
    (run cfg d ops (initial hw)).s_board_is_init = true →
      (run cfg d ops (initial hw)).s_board_gpio_isinit = true :=
  run_keeps_flagInv cfg d ops (initial hw) (fun h => absurd h (by simp [initial])) hok

/-- Instance of amended C9: bring-up, reads and writes, tear-down, bring-up again on
the all-good simulated SDK. -/
theorem flag_invariant_witness :
    (run sampleConfig (simDriver goodOpts)
      [Op.init, Op.sensor_get_power, Op.screen_set_power false, Op.deinit, Op.init]
      (initial [])).s_board_is_init = true ∧
    (run sampleConfig (simDriver goodOpts)
      [Op.init, Op.sensor_get_power, Op.screen_set_power false, Op.deinit, Op.init]
      (initial [])).s_board_gpio_isinit = true :=
  ⟨rfl, flag_invariant sampleConfig (simDriver goodOpts) []
    [Op.init, Op.sensor_get_power, Op.screen_set_power false, Op.deinit, Op.init] rfl rfl⟩

end MeshkitSense
